import Mathlib

/-!
Shallow embedding of the client-side session controller of the
satellite-imagery comparison app (`src/client/src/App.js` and the unnamed
variant `src/unnamed/part_000`, which extends it with the computation
engine; where both exist the richer `part_000` is embedded, their shared
parts are identical).

JavaScript numbers are modelled as `Rat`; strings as `String`; JS objects
holding dynamic keys (`errors`, `computationResults`) as a fixed record of
`Option String` respectively an insertion-ordered association list.
React `useState` cells become fields of `AppState`, and each event handler
becomes a pure state-transition function.  Object identity (needed for the
identity-suppression contract) is modelled by tagging each descriptor with
a reference id (`ImageObj.refId`): two `ImageObj`s are the same JS object
reference exactly when their tags coincide.
-/

/-! ### Small JavaScript-primitive models -/

/-- The ten decimal digit characters. -/
def digitChars : List Char := ['0', '1', '2', '3', '4', '5', '6', '7', '8', '9']

/-- Character for the last decimal digit of `n`. -/
def digitChar (n : Nat) : Char := digitChars.getD (n % 10) '0'

/-- Fuel-driven decimal rendering of a natural number (most significant digit
first); `fuel` bounds the number of digits. -/
def natDigitsAux : Nat → Nat → List Char
  | 0, _ => []
  | fuel + 1, n => if n < 10 then [digitChar n] else natDigitsAux fuel (n / 10) ++ [digitChar n]

/-- Decimal digit list of a natural number, as JS renders integers. -/
def natDigits (n : Nat) : List Char := natDigitsAux (n + 1) n

/-- Decimal string of a natural number. -/
def natStr (n : Nat) : String := String.mk (natDigits n)

/-- Kernel-computable floor of a rational (equal to `⌊q⌋`, see
`ratFloor_eq`). -/
def ratFloor (q : Rat) : Int := q.num / (q.den : Int)

/-- Kernel-computable ceiling of a rational (equal to `⌈q⌉`, see
`ratCeil_eq`). -/
def ratCeil (q : Rat) : Int := -ratFloor (-q)

/-- Model of JavaScript `Number.prototype.toFixed(d)` on an exact rational:
the sign is taken out, the magnitude is rounded to `d` decimal places with
ties rounded up (ECMA-262 picks the larger candidate), and the fraction is
zero-padded to exactly `d` digits. -/
def jsToFixed (q : Rat) (d : Nat) : String :=
  let m : Nat := (ratFloor (|q| * 10 ^ d + 1 / 2)).toNat
  let ip := m / 10 ^ d
  let fr := m % 10 ^ d
  let intPart := (if q < 0 then ['-'] else []) ++ natDigits ip
  if d = 0 then String.mk intPart
  else String.mk (intPart ++ '.' :: ((List.range d).map fun i => digitChar (fr / 10 ^ (d - 1 - i))))

/-- Number of characters after the first `.` of a string (0 when there is
no dot); measures how many decimal digits a rendered number carries. -/
def decimalsAfterPoint (s : String) : Nat :=
  ((s.toList.dropWhile (fun c => c != '.')).drop 1).length

/-- Truncation toward zero, the rounding used by the JS `%` operator. -/
def ratTrunc (q : Rat) : Int := if 0 ≤ q then ratFloor q else ratCeil q

/-- Model of the JavaScript remainder operator `a % b` on numbers: the
remainder of truncated division, carrying the sign of the dividend. -/
def jsFmod (a b : Rat) : Rat := a - b * ratTrunc (a / b)

/-- Digit-prefix parser: accumulates the value and count of leading digits,
returning the rest of the input. -/
def parseDigitsAux : List Char → Nat → Nat → Nat × Nat × List Char
  | [], acc, cnt => (acc, cnt, [])
  | c :: rest, acc, cnt =>
    if c.isDigit then parseDigitsAux rest (acc * 10 + (c.toNat - 48)) (cnt + 1)
    else (acc, cnt, c :: rest)

/-- Model of JavaScript `parseFloat` on the decimal forms produced by the
numeric form inputs (`[+-]?digits[.digits]`, also `.digits`): parses the
longest such prefix and returns `none` where `parseFloat` returns `NaN`
(no digit at all, e.g. the empty string).  Exponent forms are not produced
by the UI and are not modelled. -/
def jsParseFloat (s : String) : Option Rat :=
  let cs := s.toList
  let signRest : Int × List Char :=
    match cs with
    | '-' :: r => (-1, r)
    | '+' :: r => (1, r)
    | _ => (1, cs)
  let ipRes := parseDigitsAux signRest.2 0 0
  match ipRes.2.2 with
  | '.' :: r =>
    let fpRes := parseDigitsAux r 0 0
    if ipRes.2.1 = 0 ∧ fpRes.2.1 = 0 then none
    else some ((signRest.1 : Rat) * ((ipRes.1 : Rat) + (fpRes.1 : Rat) / 10 ^ fpRes.2.1))
  | _ => if ipRes.2.1 = 0 then none else some ((signRest.1 : Rat) * (ipRes.1 : Rat))

/-- Does the needle list occur at the start of the haystack list? -/
def listStartsWith : List Char → List Char → Bool
  | _, [] => true
  | [], _ :: _ => false
  | a :: as, b :: bs => a = b && listStartsWith as bs

/-- Does the needle `p` occur contiguously anywhere in the haystack? -/
def listContainsSub (p : List Char) : List Char → Bool
  | [] => p.isEmpty
  | c :: rest => listStartsWith (c :: rest) p || listContainsSub p rest

/-- Model of JavaScript `String.prototype.includes`. -/
def strIncludes (s sub : String) : Bool := listContainsSub sub.toList s.toList

/-- Truthiness of an optional string field of a JS object: `undefined`,
`null` and the empty string are falsy. -/
def strOptTruthy : Option String → Bool
  | none => false
  | some s => s ≠ ""

/-- Model of `[...new Set(l)]`: removes duplicates keeping the first
occurrence of each element. -/
def jsSetDedupAux : List String → List String → List String
  | [], _ => []
  | x :: xs, seen => if x ∈ seen then jsSetDedupAux xs seen else x :: jsSetDedupAux xs (x :: seen)

/-- `[...new Set(l)]` with no elements seen yet. -/
def jsSetDedup (l : List String) : List String := jsSetDedupAux l []

/-- Model of JS object property assignment `obj[key] = v` on an
insertion-ordered association list: an existing key keeps its position, a
new key is appended. -/
def objSet : List (String × String) → String → String → List (String × String)
  | [], key, v => [(key, v)]
  | (k0, v0) :: rest, key, v =>
    if k0 = key then (k0, v) :: rest else (k0, v0) :: objSet rest key v

/-! ### Data model -/

/-- Geographic bounds `[[south, west], [north, east]]` of an image. -/
structure LatLngBounds where
  southWest : Rat × Rat
  northEast : Rat × Rat
deriving DecidableEq

/-- An image descriptor as returned by the backend
(`data.image1` / `data.image2`). -/
structure ImageDescriptor where
  imageUrl : String
  tileUrlTemplate : String
  bounds : LatLngBounds
  dateAcquired : String
deriving DecidableEq

/-- A descriptor together with its JS object identity: `refId` stands for
the object reference, so two structurally equal descriptors received in
different responses carry different `refId`s. -/
structure ImageObj where
  refId : Nat
  desc : ImageDescriptor
deriving DecidableEq

/-- The `errors` object set by validation: one optional message per form
field (`null`/absent are conflated as `none`, both are falsy in the JS). -/
structure FieldErrors where
  latitude : Option String
  longitude : Option String
  date1 : Option String
  date2 : Option String
deriving DecidableEq

/-- The empty `{}` errors object. -/
def FieldErrors.empty : FieldErrors := ⟨none, none, none, none⟩

/-- `Object.keys(newErrors).length > 0`: the code only ever assigns message
strings (never `null`) before this test, so a key exists iff a message is
present. -/
def FieldErrors.hasErrors (e : FieldErrors) : Bool :=
  e.latitude.isSome || e.longitude.isSome || e.date1.isSome || e.date2.isSome

/-- The whole component state: one field per `useState` cell of `App`. -/
structure AppState where
  latitude : String
  longitude : String
  date1 : String
  date2 : String
  cloudCover : Int
  errors : FieldErrors
  isLoading : Bool
  apiError : String
  image1Info : Option ImageObj
  image2Info : Option ImageObj
  isImage1Visible : Bool
  mapCenter : Option (Rat × Rat)
  markerPosition : Option (Rat × Rat)
  selectedComputations : List String
  computationResults : List (String × String)
  isCalculating : Bool
  showCalculationResults : Bool
deriving DecidableEq

/-- The `useState` initial values of a fresh session. -/
def initialState : AppState where
  latitude := "35.4393"
  longitude := "-82.2465"
  date1 := "2024-09-16"
  date2 := "2024-10-12"
  cloudCover := 20
  errors := FieldErrors.empty
  isLoading := false
  apiError := ""
  image1Info := none
  image2Info := none
  isImage1Visible := true
  mapCenter := none
  markerPosition := none
  selectedComputations := []
  computationResults := []
  isCalculating := false
  showCalculationResults := false

/-! ### Field edit handlers -/

/-- `handleLatitudeChange`: store the new text and clear a pending latitude
error (the JS clears only when `errors.latitude` is truthy). -/
def handleLatitudeChange (v : String) (s : AppState) : AppState :=
  let s1 := { s with latitude := v }
  if strOptTruthy s.errors.latitude then { s1 with errors := { s1.errors with latitude := none } }
  else s1

/-- `handleLongitudeChange`. -/
def handleLongitudeChange (v : String) (s : AppState) : AppState :=
  let s1 := { s with longitude := v }
  if strOptTruthy s.errors.longitude then { s1 with errors := { s1.errors with longitude := none } }
  else s1

/-- `handleDate1Change`. -/
def handleDate1Change (v : String) (s : AppState) : AppState :=
  let s1 := { s with date1 := v }
  if strOptTruthy s.errors.date1 then { s1 with errors := { s1.errors with date1 := none } }
  else s1

/-- `handleDate2Change`. -/
def handleDate2Change (v : String) (s : AppState) : AppState :=
  let s1 := { s with date2 := v }
  if strOptTruthy s.errors.date2 then { s1 with errors := { s1.errors with date2 := none } }
  else s1

/-! ### Submit: validation, request, reconciliation -/

/-- The validation block at the top of `handleSubmit` (`newErrors`). -/
def submitValidate (s : AppState) : FieldErrors :=
  let latNum := jsParseFloat s.latitude
  let lonNum := jsParseFloat s.longitude
  { latitude :=
      if latNum.isNone ∨ s.latitude = "" then some "Latitude is required and must be a number."
      else if latNum.getD 0 < -90 ∨ 90 < latNum.getD 0 then some "Must be between -90 and 90."
      else none
    longitude :=
      if lonNum.isNone ∨ s.longitude = "" then some "Longitude is required and must be a number."
      else if lonNum.getD 0 < -180 ∨ 180 < lonNum.getD 0 then some "Must be between -180 and 180."
      else none
    date1 := if s.date1 = "" then some "Date 1 is required." else none
    date2 := if s.date2 = "" then some "Date 2 is required." else none }

/-- Outcome of the `fetch` to `/api/change-detection`: a parsed success
body, a non-2xx response with its status and body text, or a network-level
rejection with an error message. -/
inductive FetchResponse where
  | ok (image1 image2 : ImageDescriptor)
  | httpError (status : Nat) (body : String)
  | networkFailure (message : String)
deriving DecidableEq

/-- The `setImage1Info(prev => ...)` / `setImage2Info(prev => ...)` updater:
keep the currently held object when the incoming descriptor has the same
`imageUrl` and (`JSON.stringify`-equal) `bounds`; otherwise install the
incoming object. -/
def reconcileImage (prev : Option ImageObj) (incoming : ImageObj) : ImageObj :=
  match prev with
  | some p =>
    if p.desc.imageUrl = incoming.desc.imageUrl ∧ p.desc.bounds = incoming.desc.bounds then p
    else incoming
  | none => incoming

/-- State after `handleSubmit` passes validation and enters the request:
errors stored (all clear), image 1 made visible, loading flag set, API
error text cleared, both held descriptors cleared, results hidden. -/
def submitLoading (s : AppState) : AppState :=
  { s with
    errors := submitValidate s
    isImage1Visible := true
    isLoading := true
    apiError := ""
    image1Info := none
    image2Info := none
    showCalculationResults := false }

/-- Resolution of the in-flight request from state `s1`: the `try` body
after `fetch` returns, the `catch`, and the `finally` that clears the
loading flag.  `id1`/`id2` are the fresh object identities of the parsed
response descriptors. -/
def submitResolve (s1 : AppState) (latNum lonNum : Rat) (resp : FetchResponse)
    (id1 id2 : Nat) : AppState :=
  match resp with
  | .ok img1 img2 =>
    { s1 with
      image1Info := some (reconcileImage s1.image1Info ⟨id1, img1⟩)
      image2Info := some (reconcileImage s1.image2Info ⟨id2, img2⟩)
      mapCenter := some (latNum, lonNum)
      markerPosition := some (latNum, lonNum)
      isLoading := false }
  | .httpError status body =>
    { s1 with
      apiError := if body = "" then "HTTP error! Status: " ++ natStr status else body
      mapCenter := none
      markerPosition := none
      isLoading := false }
  | .networkFailure msg =>
    { s1 with
      apiError := msg
      mapCenter := none
      markerPosition := none
      isLoading := false }

/-- `handleSubmit` as a whole: validate; on failure store the errors and
clear images, API error, map center, marker and result visibility; on
success enter the loading state and resolve the response. -/
def handleSubmit (s : AppState) (resp : FetchResponse) (id1 id2 : Nat) : AppState :=
  let newErrors := submitValidate s
  if newErrors.hasErrors then
    { s with
      errors := newErrors
      image1Info := none
      image2Info := none
      apiError := ""
      mapCenter := none
      markerPosition := none
      showCalculationResults := false }
  else
    submitResolve (submitLoading s) ((jsParseFloat s.latitude).getD 0)
      ((jsParseFloat s.longitude).getD 0) resp id1 id2

/-! ### Viewport synchronization -/

/-- The command `MapUpdater` sends to the map surface after its settle
delay. -/
inductive ViewportCommand where
  | flyTo (center : Rat × Rat) (zoom : Nat)
  | fitBounds (b : LatLngBounds)
deriving DecidableEq

/-- The body of `MapUpdater`'s effect: `if (center) map.flyTo(center, 13);
else if (bounds) map.fitBounds(bounds);`. -/
def mapUpdaterCommand (bounds : Option LatLngBounds) (center : Option (Rat × Rat)) :
    Option ViewportCommand :=
  match center with
  | some c => some (.flyTo c 13)
  | none =>
    match bounds with
    | some b => some (.fitBounds b)
    | none => none

/-- The `mapUpdaterBounds` memo: image 1's bounds when present, else
image 2's, else none. -/
def mapUpdaterBoundsOf (s : AppState) : Option LatLngBounds :=
  match s.image1Info with
  | some i => some i.desc.bounds
  | none =>
    match s.image2Info with
    | some i => some i.desc.bounds
    | none => none

/-! ### Map clicks and longitude normalization -/

/-- The longitude folding in `MapClickEventHandler`: a click longitude
beyond ±180 (a wrapped world copy) is reduced modulo 360 and folded back
into [-180, 180]. -/
def normalizeLongitude (lon : Rat) : Rat :=
  if lon > 180 then
    if jsFmod lon 360 > 180 then jsFmod lon 360 - 360 else jsFmod lon 360
  else if lon < -180 then
    if jsFmod lon 360 < -180 then jsFmod lon 360 + 360 else jsFmod lon 360
  else lon

/-- The click handler: normalize the longitude, write both fields back as
6-decimal strings, and place marker and map center at the clicked point. -/
def handleMapClick (clickedLat clickedLon : Rat) (s : AppState) : AppState :=
  let lon := normalizeLongitude clickedLon
  { s with
    latitude := jsToFixed clickedLat 6
    longitude := jsToFixed lon 6
    markerPosition := some (clickedLat, lon)
    mapCenter := some (clickedLat, lon) }

/-! ### Selection engine -/

/-- The static `computationCategories` catalog. -/
def computationCategories : List (String × List String) :=
  [("Disaster Response & Monitoring",
    ["Differenced Normalized Burn Ratio (dNBR)",
     "Normalized Difference Flood Index (NDFI)",
     "Building Damage Proxy Map (Simulated)",
     "Landslide Susceptibility Index (Simulated)"]),
   ("Agriculture & Forestry",
    ["NDVI (Normalized Difference Vegetation Index)",
     "EVI (Enhanced Vegetation Index)",
     "NDMI (Normalized Difference Moisture Index)",
     "Chlorophyll Index (Simulated)"]),
   ("Water Resources",
    ["NDWI (Normalized Difference Water Index - Surface Water)",
     "Modified Normalized Difference Water Index (MNDWI)",
     "Turbidity/Sedimentation Index (Simulated)"]),
   ("Urban & Land Use Change",
    ["Normalized Difference Built-up Index (NDBI)",
     "Impervious Surface Change Detection (Simulated)",
     "Urban Heat Island (LST Difference - Simulated)",
     "Green Space Monitoring (Simulated)"])]

/-- The category checkbox's `checked` expression:
`computations.every(comp => selectedComputations.includes(comp))`. -/
def categoryChecked (computations : List String) (selected : List String) : Bool :=
  computations.all fun comp => selected.contains comp

/-- `handleComputationChange`: append the item when checked, filter it out
when unchecked; hide previous results. -/
def handleComputationChange (value : String) (checked : Bool) (s : AppState) : AppState :=
  { s with
    selectedComputations :=
      if checked then s.selectedComputations ++ [value]
      else s.selectedComputations.filter fun comp => comp != value
    showCalculationResults := false }

/-- `handleCategoryCheckboxChange`: union in (deduplicated) or remove all
items of the category; hide previous results. -/
def handleCategoryCheckboxChange (category : String) (checked : Bool) (s : AppState) : AppState :=
  let computationsInCategory := (computationCategories.lookup category).getD []
  { s with
    selectedComputations :=
      if checked then jsSetDedup (s.selectedComputations ++ computationsInCategory)
      else s.selectedComputations.filter fun comp => !computationsInCategory.contains comp
    showCalculationResults := false }

/-! ### Simulated computation runner

`Math.random()` is modelled as a stream `r : Nat → Rat` of samples in
[0, 1), consumed left to right; each dispatch that matches a branch
consumes exactly one sample. -/

/-- The numeric value of `x.toFixed(2)`: magnitude rounded to 2 decimal
places (ties up), sign restored. -/
def roundTo2 (q : Rat) : Rat :=
  ((if q < 0 then -ratFloor (|q| * 100 + 1 / 2) else ratFloor (|q| * 100 + 1 / 2) : Int) : Rat) / 100

/-- Rendering of `Math.abs(x)` in a template literal for a 2-decimal
value `x`: JS prints the shortest decimal form, dropping trailing zeros
and a bare decimal point. -/
def ratAbs2Str (q : Rat) : String :=
  let n := (ratFloor (|q| * 100)).toNat
  if n % 100 = 0 then natStr (n / 100)
  else if n % 10 = 0 then String.mk (natDigits (n / 100) ++ '.' :: [digitChar (n % 100 / 10)])
  else String.mk (natDigits (n / 100) ++ '.' :: [digitChar (n % 100 / 10), digitChar n])

/-- One iteration of the inner `forEach` body of `handleCalculate`: the
`includes`-dispatch chain assigning one result key, returning the updated
results object and the next unconsumed sample index.  String-typed JS
values produced by `toFixed` and template literals are kept as strings;
where the source coerces a `toFixed` string back to a number
(`Math.abs(change)`, `change > 0`) the rounded rational is used. -/
def dispatchComp (comp : String) (res : List (String × String)) (r : Nat → Rat) (k : Nat) :
    List (String × String) × Nat :=
  if strIncludes comp "dNBR" then
    (objSet res "dNBR" (jsToFixed (r k * 1.5 - 0.5) 4), k + 1)
  else if strIncludes comp "NDFI" then
    (objSet res "NDFI" (jsToFixed (r k * 0.8 + 0.1) 4), k + 1)
  else if strIncludes comp "Building Damage Proxy Map" then
    (objSet res "buildingDamage"
      ("Estimated " ++ natStr ((ratFloor (r k * 20)).toNat + 5) ++ "% structural damage detected."),
     k + 1)
  else if strIncludes comp "Landslide Susceptibility Index" then
    (objSet res "landslideSusceptibility"
      (if r k < 0.3 then "Low" else if r k < 0.7 then "Medium" else "High"), k + 1)
  else if strIncludes comp "NDVI" then
    (objSet res "NDVI" (jsToFixed (r k * 2 - 1) 4), k + 1)
  else if strIncludes comp "EVI" then
    (objSet res "EVI" (jsToFixed (r k * 0.8 + 0.1) 4), k + 1)
  else if strIncludes comp "NDMI" then
    (objSet res "NDMI" (jsToFixed (r k * 1.5 - 0.5) 4), k + 1)
  else if strIncludes comp "Chlorophyll Index" then
    (objSet res "ChlorophyllIndex" (jsToFixed (r k * 0.5 + 0.2) 4), k + 1)
  else if strIncludes comp "NDWI (Normalized Difference Water Index - Surface Water)" then
    (objSet res "NDWI_Surface" (jsToFixed (r k * 1.5 - 0.5) 4), k + 1)
  else if strIncludes comp "MNDWI" then
    (objSet res "MNDWI" (jsToFixed (r k * 1.5 - 0.5) 4), k + 1)
  else if strIncludes comp "Turbidity/Sedimentation Index" then
    (objSet res "Turbidity" (jsToFixed (r k * 0.4 + 0.05) 4), k + 1)
  else if strIncludes comp "NDBI" then
    (objSet res "NDBI" (jsToFixed (r k * 1.2 - 0.6) 4), k + 1)
  else if strIncludes comp "Impervious Surface Change Detection" then
    (objSet res "imperviousChange"
      (ratAbs2Str (roundTo2 (r k * 20 - 10)) ++ "% " ++
        (if roundTo2 (r k * 20 - 10) > 0 then "Increase" else "Decrease") ++
        " in impervious surface"),
     k + 1)
  else if strIncludes comp "Urban Heat Island" then
    (objSet res "urbanHeatIsland"
      (jsToFixed (r k * 5 + 1) 2 ++ "Â°C hotter in urban core (Simulated)"), k + 1)
  else if strIncludes comp "Green Space Monitoring" then
    (objSet res "greenSpaceChange"
      (ratAbs2Str (roundTo2 (r k * 15 - 7)) ++ "% " ++
        (if roundTo2 (r k * 15 - 7) > 0 then "Increase" else "Decrease") ++
        " in green space cover"),
     k + 1)
  else (res, k)

/-- One full pass of the inner `forEach` over the selection. -/
def runComps : List String → List (String × String) → (Nat → Rat) → Nat →
    List (String × String) × Nat
  | [], res, _, k => (res, k)
  | c :: cs, res, r, k =>
    let step := dispatchComp c res r k
    runComps cs step.1 r step.2

/-- The nested `forEach` of `handleCalculate`: the outer loop repeats the
full inner pass once per selected item (the inner binder shadows the outer
one in the source). -/
def computeResults (selected : List String) (r : Nat → Rat) : List (String × String) :=
  (selected.foldl (fun acc _ => runComps selected acc.1 r acc.2) ([], 0)).1

/-- The `disabled` expression of the Calculate button:
`selectedComputations.length === 0 || isCalculating`. -/
def calculateDisabled (s : AppState) : Bool :=
  s.selectedComputations.isEmpty || s.isCalculating

/-- The synchronous prefix of `handleCalculate`: set the running flag and
clear previous results. -/
def handleCalculateStart (s : AppState) : AppState :=
  { s with isCalculating := true, computationResults := [] }

/-- The `setTimeout` body of `handleCalculate` firing after the fixed
1.5 s latency: publish the freshly built results, clear the running flag,
show the results. -/
def handleCalculateFinish (s : AppState) (r : Nat → Rat) : AppState :=
  { s with
    computationResults := computeResults s.selectedComputations r
    isCalculating := false
    showCalculationResults := true }

/-- `handleClearAndReset`: clear images, reset image-1 visibility, clear
errors and API message and loading flag, clear the computation selection,
results, running flag and result visibility.  Form fields, cloud cover,
map center and marker are not touched by this handler. -/
def handleClearAndReset (s : AppState) : AppState :=
  { s with
    image1Info := none
    image2Info := none
    isImage1Visible := true
    errors := FieldErrors.empty
    apiError := ""
    isLoading := false
    selectedComputations := []
    computationResults := []
    isCalculating := false
    showCalculationResults := false }

/-! ### Concrete fixtures used by counterexamples and witnesses -/

/-- A sample backend descriptor ("before" image). -/
def descA : ImageDescriptor where
  imageUrl := "img-a.png"
  tileUrlTemplate := "tiles-a"
  bounds := ⟨(35, -83), (36, -82)⟩
  dateAcquired := "2024-09-16"

/-- A sample backend descriptor with distinct bounds ("after" image). -/
def descB : ImageDescriptor where
  imageUrl := "img-b.png"
  tileUrlTemplate := "tiles-b"
  bounds := ⟨(349, -829), (359, -819)⟩
  dateAcquired := "2024-10-12"

/-- A loaded session with computed results whose marker and viewport are
set, used to test `handleClearAndReset`. -/
def c5State : AppState :=
  { initialState with
    image1Info := some ⟨1, descA⟩
    image2Info := some ⟨2, descB⟩
    computationResults := [("NDVI", "0.1234")]
    selectedComputations := ["NDVI (Normalized Difference Vegetation Index)"]
    showCalculationResults := true
    mapCenter := some (10, 20)
    markerPosition := some (10, 20) }

/-- A session that already holds both descriptors as loaded objects
(reference ids 1 and 2) with the initial coordinate/date inputs. -/
def c1State : AppState :=
  { initialState with
    image1Info := some ⟨1, descA⟩
    image2Info := some ⟨2, descB⟩
    mapCenter := some (35.4393, -82.2465)
    markerPosition := some (35.4393, -82.2465) }

/-- The section-8 scenario: submit the initial coordinates/dates against a
stub service returning two descriptors with distinct bounds. -/
def scenarioResult : AppState := handleSubmit initialState (.ok descA descB) 1 2

/-! ### Helper lemmas -/

lemma mem_jsSetDedupAux {x : String} :
    ∀ (l seen : List String), x ∈ jsSetDedupAux l seen ↔ x ∈ l ∧ x ∉ seen := by
  intro l
  induction l with
  | nil => intro seen; simp [jsSetDedupAux]
  | cons a t ih =>
    intro seen
    by_cases ha : a ∈ seen
    · simp only [jsSetDedupAux, if_pos ha, ih, List.mem_cons]
      constructor
      · rintro ⟨h1, h2⟩; exact ⟨Or.inr h1, h2⟩
      · rintro ⟨h1 | h1, h2⟩
        · exact absurd (h1 ▸ ha) h2
        · exact ⟨h1, h2⟩
    · simp only [jsSetDedupAux, if_neg ha, List.mem_cons, ih]
      by_cases hxa : x = a
      · subst hxa; tauto
      · tauto

lemma mem_jsSetDedup {x : String} {l : List String} : x ∈ jsSetDedup l ↔ x ∈ l := by
  simp [jsSetDedup, mem_jsSetDedupAux]

lemma digitChar_mem (n : Nat) : digitChar n ∈ digitChars := by
  unfold digitChar
  have h : n % 10 < digitChars.length := by
    have := Nat.mod_lt n (show 0 < 10 by norm_num)
    simpa [digitChars] using this
  rw [List.getD_eq_getElem _ _ h]
  exact List.getElem_mem h

lemma mem_digitChars_ne_dot : ∀ c ∈ digitChars, c ≠ '.' := by decide

lemma natDigitsAux_subset :
    ∀ fuel n, ∀ c ∈ natDigitsAux fuel n, c ∈ digitChars := by
  intro fuel
  induction fuel with
  | zero => intro n c hc; simp [natDigitsAux] at hc
  | succ f ih =>
    intro n c hc
    unfold natDigitsAux at hc
    by_cases h : n < 10
    · rw [if_pos h] at hc
      simp only [List.mem_singleton] at hc
      exact hc ▸ digitChar_mem n
    · rw [if_neg h] at hc
      rcases List.mem_append.mp hc with h1 | h1
      · exact ih (n / 10) c h1
      · simp only [List.mem_singleton] at h1
        exact h1 ▸ digitChar_mem n

lemma dropWhile_append_dot (l₁ l₂ : List Char) (h : ∀ c ∈ l₁, c ≠ '.') :
    (l₁ ++ '.' :: l₂).dropWhile (fun c => c != '.') = '.' :: l₂ := by
  induction l₁ with
  | nil => simp [List.dropWhile]
  | cons a t ih =>
    have ha : (a != '.') = true := by
      simp only [bne_iff_ne, ne_eq]
      exact h a (List.mem_cons_self a t)
    simp only [List.cons_append, List.dropWhile_cons, ha, if_true]
    exact ih fun c hc => h c (List.mem_cons_of_mem _ hc)

lemma decimalsAfterPoint_mk (l₁ l₂ : List Char) (h : ∀ c ∈ l₁, c ≠ '.') :
    decimalsAfterPoint (String.mk (l₁ ++ '.' :: l₂)) = l₂.length := by
  unfold decimalsAfterPoint
  rw [show (String.mk (l₁ ++ '.' :: l₂)).toList = l₁ ++ '.' :: l₂ from rfl,
    dropWhile_append_dot _ _ h]
  simp

lemma jsToFixed_decimalsAfterPoint (q : Rat) (d : Nat) (hd : d ≠ 0) :
    decimalsAfterPoint (jsToFixed q d) = d := by
  have hchars : ∀ c ∈ (if q < 0 then ['-'] else []) ++
      natDigits ((ratFloor (|q| * 10 ^ d + 1 / 2)).toNat / 10 ^ d), c ≠ '.' := by
    intro c hc
    rcases List.mem_append.mp hc with h1 | h1
    · by_cases hq : q < 0
      · rw [if_pos hq] at h1
        simp only [List.mem_singleton] at h1
        subst h1; decide
      · rw [if_neg hq] at h1; simp at h1
    · exact mem_digitChars_ne_dot _ (natDigitsAux_subset _ _ c h1)
  simp only [jsToFixed]
  rw [if_neg hd, decimalsAfterPoint_mk _ _ hchars]
  simp

lemma ratFloor_eq (q : Rat) : ratFloor q = ⌊q⌋ := Rat.floor_def.symm

lemma ratCeil_eq (q : Rat) : ratCeil q = ⌈q⌉ := by
  unfold ratCeil
  rw [ratFloor_eq, Int.floor_neg, neg_neg]

lemma jsFmod_pos_bounds (x : Rat) (hx : 0 < x) :
    0 ≤ jsFmod x 360 ∧ jsFmod x 360 < 360 := by
  unfold jsFmod ratTrunc
  have hy : (0 : Rat) ≤ x / 360 := le_of_lt (div_pos hx (by norm_num))
  rw [if_pos hy, ratFloor_eq]
  have h1 : ((⌊x / 360⌋ : Int) : Rat) ≤ x / 360 := Int.floor_le (x / 360)
  have h2 : x / 360 < (⌊x / 360⌋ : Int) + 1 := Int.lt_floor_add_one (x / 360)
  have h3 : x / 360 * 360 = x := div_mul_cancel₀ x (by norm_num)
  constructor <;> nlinarith [h1, h2, h3]

lemma jsFmod_neg_bounds (x : Rat) (hx : x < 0) :
    -360 < jsFmod x 360 ∧ jsFmod x 360 ≤ 0 := by
  unfold jsFmod ratTrunc
  have hy : ¬ (0 : Rat) ≤ x / 360 := not_le.mpr (div_neg_of_neg_of_pos hx (by norm_num))
  rw [if_neg hy, ratCeil_eq]
  have h1 : x / 360 ≤ ((⌈x / 360⌉ : Int) : Rat) := Int.le_ceil (x / 360)
  have h2 : ((⌈x / 360⌉ : Int) : Rat) < x / 360 + 1 := Int.ceil_lt_add_one (x / 360)
  have h3 : x / 360 * 360 = x := div_mul_cancel₀ x (by norm_num)
  constructor <;> nlinarith [h1, h2, h3]

/-! ### Claim theorems -/

/-- C8: the map-click longitude normalization returns every longitude in
[-180, 180] unchanged (hence is idempotent), maps 200 to -160 and -200 to
160, and sends every input into [-180, 180]. -/
theorem c8_normalize_longitude :
    (∀ x : Rat, -180 ≤ x → x ≤ 180 → normalizeLongitude x = x)
    ∧ normalizeLongitude 200 = -160
    ∧ normalizeLongitude (-200) = 160
    ∧ (∀ x : Rat, -180 ≤ normalizeLongitude x ∧ normalizeLongitude x ≤ 180) := by
  refine ⟨?_, ?_, ?_, ?_⟩
  · intro x h1 h2
    unfold normalizeLongitude
    rw [if_neg (not_lt.mpr h2), if_neg (not_lt.mpr h1)]
  · have h200 : jsFmod 200 360 = 200 := by
      unfold jsFmod ratTrunc
      rw [if_pos (by norm_num : (0 : Rat) ≤ 200 / 360), ratFloor_eq]
      norm_num
    unfold normalizeLongitude
    rw [h200]
    norm_num
  · have h200 : jsFmod (-200) 360 = -200 := by
      unfold jsFmod ratTrunc
      rw [if_neg (by norm_num : ¬ (0 : Rat) ≤ -200 / 360), ratCeil_eq]
      norm_num
    unfold normalizeLongitude
    rw [h200]
    norm_num
  · intro x
    unfold normalizeLongitude
    split_ifs with h1 h2 h3 h4
    · have hb := jsFmod_pos_bounds x (by linarith)
      constructor <;> linarith [hb.1, hb.2]
    · have hb := jsFmod_pos_bounds x (by linarith)
      push_neg at h2
      constructor <;> linarith [hb.1]
    · have hb := jsFmod_neg_bounds x (by linarith)
      constructor <;> linarith [hb.1, hb.2]
    · have hb := jsFmod_neg_bounds x (by linarith)
      push_neg at h4
      constructor <;> linarith [hb.2]
    · push_neg at h1 h3
      constructor <;> linarith

/-- Witness for C8 at concrete inputs: 170 is in range and returned
unchanged, and a wrapped click at 500 lands in range. -/
theorem c8_normalize_longitude_witness :
    normalizeLongitude 170 = 170
    ∧ -180 ≤ normalizeLongitude 500 ∧ normalizeLongitude 500 ≤ 180 :=
  ⟨c8_normalize_longitude.1 170 (by norm_num) (by norm_num),
   (c8_normalize_longitude.2.2.2 500).1,
   (c8_normalize_longitude.2.2.2 500).2⟩

/-- C9: the category checkbox state is derived: it is `true` exactly when
every item of the category is in the selection; checking a category (which
unions all its items into the selection) makes it fully checked, and
unchecking any single item of the category makes it not fully checked. -/
theorem c9_category_checkbox :
    (∀ cat sel : List String,
      categoryChecked cat sel = true ↔ ∀ c ∈ cat, sel.contains c = true)
    ∧ (∀ (s : AppState) (category : String) (comps : List String),
        computationCategories.lookup category = some comps →
        categoryChecked comps
          (handleCategoryCheckboxChange category true s).selectedComputations = true)
    ∧ (∀ (s : AppState) (cat : List String) (x : String), x ∈ cat →
        categoryChecked cat
          (handleComputationChange x false s).selectedComputations = false) := by
  refine ⟨?_, ?_, ?_⟩
  · intro cat sel
    simp [categoryChecked]
  · intro s category comps hlook
    simp only [handleCategoryCheckboxChange, hlook, Option.getD_some, if_true,
      categoryChecked, List.all_eq_true]
    intro c hc
    have : c ∈ jsSetDedup (s.selectedComputations ++ comps) :=
      mem_jsSetDedup.mpr (List.mem_append_right _ hc)
    simpa using this
  · intro s cat x hx
    simp only [handleComputationChange, Bool.false_eq_true, if_false, categoryChecked]
    rw [Bool.eq_false_iff]
    intro hall
    have := (List.all_eq_true.mp hall) x hx
    simp at this

/-- Witness for C9: checking "Agriculture & Forestry" from a fresh session
makes the category fully checked, and removing NDVI afterwards makes it
not fully checked. -/
theorem c9_category_checkbox_witness :
    categoryChecked
      ["NDVI (Normalized Difference Vegetation Index)",
       "EVI (Enhanced Vegetation Index)",
       "NDMI (Normalized Difference Moisture Index)",
       "Chlorophyll Index (Simulated)"]
      (handleCategoryCheckboxChange "Agriculture & Forestry" true
        initialState).selectedComputations = true
    ∧ categoryChecked
      ["NDVI (Normalized Difference Vegetation Index)",
       "EVI (Enhanced Vegetation Index)",
       "NDMI (Normalized Difference Moisture Index)",
       "Chlorophyll Index (Simulated)"]
      (handleComputationChange "NDVI (Normalized Difference Vegetation Index)" false
        initialState).selectedComputations = false :=
  ⟨c9_category_checkbox.2.1 initialState "Agriculture & Forestry" _ (by decide),
   c9_category_checkbox.2.2 initialState _
     "NDVI (Normalized Difference Vegetation Index)" (by decide)⟩

/-- C10: for each of the four form fields, the edit handler stores the new
text, clears at most that field's own error, and leaves the other fields'
values and errors, the images, the API error text, the selection and the
computation results unchanged. -/
theorem c10_edit_handlers_frame (v : String) (s : AppState) :
    ((handleLatitudeChange v s).latitude = v
      ∧ ((handleLatitudeChange v s).errors.latitude = none
          ∨ (handleLatitudeChange v s).errors.latitude = s.errors.latitude)
      ∧ (handleLatitudeChange v s).errors.longitude = s.errors.longitude
      ∧ (handleLatitudeChange v s).errors.date1 = s.errors.date1
      ∧ (handleLatitudeChange v s).errors.date2 = s.errors.date2
      ∧ (handleLatitudeChange v s).longitude = s.longitude
      ∧ (handleLatitudeChange v s).date1 = s.date1
      ∧ (handleLatitudeChange v s).date2 = s.date2
      ∧ (handleLatitudeChange v s).image1Info = s.image1Info
      ∧ (handleLatitudeChange v s).image2Info = s.image2Info
      ∧ (handleLatitudeChange v s).apiError = s.apiError
      ∧ (handleLatitudeChange v s).selectedComputations = s.selectedComputations
      ∧ (handleLatitudeChange v s).computationResults = s.computationResults)
    ∧ ((handleLongitudeChange v s).longitude = v
      ∧ ((handleLongitudeChange v s).errors.longitude = none
          ∨ (handleLongitudeChange v s).errors.longitude = s.errors.longitude)
      ∧ (handleLongitudeChange v s).errors.latitude = s.errors.latitude
      ∧ (handleLongitudeChange v s).errors.date1 = s.errors.date1
      ∧ (handleLongitudeChange v s).errors.date2 = s.errors.date2
      ∧ (handleLongitudeChange v s).latitude = s.latitude
      ∧ (handleLongitudeChange v s).date1 = s.date1
      ∧ (handleLongitudeChange v s).date2 = s.date2
      ∧ (handleLongitudeChange v s).image1Info = s.image1Info
      ∧ (handleLongitudeChange v s).image2Info = s.image2Info
      ∧ (handleLongitudeChange v s).apiError = s.apiError
      ∧ (handleLongitudeChange v s).selectedComputations = s.selectedComputations
      ∧ (handleLongitudeChange v s).computationResults = s.computationResults)
    ∧ ((handleDate1Change v s).date1 = v
      ∧ ((handleDate1Change v s).errors.date1 = none
          ∨ (handleDate1Change v s).errors.date1 = s.errors.date1)
      ∧ (handleDate1Change v s).errors.latitude = s.errors.latitude
      ∧ (handleDate1Change v s).errors.longitude = s.errors.longitude
      ∧ (handleDate1Change v s).errors.date2 = s.errors.date2
      ∧ (handleDate1Change v s).latitude = s.latitude
      ∧ (handleDate1Change v s).longitude = s.longitude
      ∧ (handleDate1Change v s).date2 = s.date2
      ∧ (handleDate1Change v s).image1Info = s.image1Info
      ∧ (handleDate1Change v s).image2Info = s.image2Info
      ∧ (handleDate1Change v s).apiError = s.apiError
      ∧ (handleDate1Change v s).selectedComputations = s.selectedComputations
      ∧ (handleDate1Change v s).computationResults = s.computationResults)
    ∧ ((handleDate2Change v s).date2 = v
      ∧ ((handleDate2Change v s).errors.date2 = none
          ∨ (handleDate2Change v s).errors.date2 = s.errors.date2)
      ∧ (handleDate2Change v s).errors.latitude = s.errors.latitude
      ∧ (handleDate2Change v s).errors.longitude = s.errors.longitude
      ∧ (handleDate2Change v s).errors.date1 = s.errors.date1
      ∧ (handleDate2Change v s).latitude = s.latitude
      ∧ (handleDate2Change v s).longitude = s.longitude
      ∧ (handleDate2Change v s).date1 = s.date1
      ∧ (handleDate2Change v s).image1Info = s.image1Info
      ∧ (handleDate2Change v s).image2Info = s.image2Info
      ∧ (handleDate2Change v s).apiError = s.apiError
      ∧ (handleDate2Change v s).selectedComputations = s.selectedComputations
      ∧ (handleDate2Change v s).computationResults = s.computationResults) := by
  refine ⟨?_, ?_, ?_, ?_⟩
  · by_cases h : strOptTruthy s.errors.latitude = true <;> simp [handleLatitudeChange, h]
  · by_cases h : strOptTruthy s.errors.longitude = true <;> simp [handleLongitudeChange, h]
  · by_cases h : strOptTruthy s.errors.date1 = true <;> simp [handleDate1Change, h]
  · by_cases h : strOptTruthy s.errors.date2 = true <;> simp [handleDate2Change, h]

/-- C5 counterexample: resetting a loaded session whose marker/viewport are
set does not return the fresh initial session state, because
`handleClearAndReset` leaves the map center and marker untouched. -/
theorem c5_counterexample :
    handleClearAndReset c5State ≠ initialState
    ∧ (handleClearAndReset c5State).markerPosition = some (10, 20)
    ∧ initialState.markerPosition = none := by
  refine ⟨by decide, rfl, rfl⟩

/-- C5 (amended): `reset` clears the images, the image-1 visibility flag,
the field errors, the API error, the loading flag, the selection, the
computation results, the running flag and the result visibility to their
initial values, but leaves the form fields, the cloud-cover threshold, the
map center and the marker untouched; consequently it yields the fresh
initial state exactly when those untouched fields already hold their
initial values. -/
theorem c5_reset_characterization (s : AppState) :
    handleClearAndReset s = initialState ↔
      (s.latitude = "35.4393" ∧ s.longitude = "-82.2465" ∧ s.date1 = "2024-09-16"
        ∧ s.date2 = "2024-10-12" ∧ s.cloudCover = 20 ∧ s.mapCenter = none
        ∧ s.markerPosition = none) := by
  simp [handleClearAndReset, initialState, AppState.mk.injEq, FieldErrors.empty]

/-- Witness for C5 (amended): resetting the fresh session is the fresh
session. -/
theorem c5_reset_characterization_witness :
    handleClearAndReset initialState = initialState :=
  (c5_reset_characterization initialState).mpr ⟨rfl, rfl, rfl, rfl, rfl, rfl, rfl⟩

/-- C6: the Calculate action is enabled exactly when the selection is
non-empty and no run is in progress; starting a run sets the running flag
and clears the stored results; finishing the run clears the running flag,
shows the results, and publishes a result set built solely from the
current selection and the random stream, independent of any previously
stored result set (no merging). -/
theorem c6_run_computation_lifecycle :
    (∀ s : AppState, calculateDisabled s = false ↔
        (s.selectedComputations ≠ [] ∧ s.isCalculating = false))
    ∧ (∀ s : AppState,
        (handleCalculateStart s).isCalculating = true ∧
        (handleCalculateStart s).computationResults = [])
    ∧ (∀ (s : AppState) (r : Nat → Rat),
        (handleCalculateFinish s r).isCalculating = false ∧
        (handleCalculateFinish s r).showCalculationResults = true ∧
        (handleCalculateFinish s r).computationResults =
          computeResults s.selectedComputations r)
    ∧ (∀ (s : AppState) (r : Nat → Rat) (prev : List (String × String)),
        (handleCalculateFinish { s with computationResults := prev } r).computationResults =
          computeResults s.selectedComputations r) := by
  refine ⟨?_, ?_, ?_, ?_⟩
  · intro s
    rw [calculateDisabled, Bool.or_eq_false_iff]
    constructor
    · rintro ⟨h1, h2⟩
      exact ⟨by simpa using h1, h2⟩
    · rintro ⟨h1, h2⟩
      exact ⟨by simpa using h1, h2⟩
  · intro s; exact ⟨rfl, rfl⟩
  · intro s r; exact ⟨rfl, rfl, rfl⟩
  · intro s r prev; rfl

/-- Witness for C6: with NDVI selected and no run in progress the
Calculate action is enabled. -/
theorem c6_run_computation_lifecycle_witness :
    calculateDisabled { initialState with
      selectedComputations := ["NDVI (Normalized Difference Vegetation Index)"] } = false :=
  (c6_run_computation_lifecycle.1 _).mpr ⟨by decide, rfl⟩

lemma jsParseFloat_empty : jsParseFloat "" = none := rfl

lemma jsParseFloat_ne_empty {s : String} {v : Rat} (h : jsParseFloat s = some v) : s ≠ "" := by
  intro he
  rw [he, jsParseFloat_empty] at h
  exact Option.noConfusion h

lemma jsParseFloat_lat : jsParseFloat "35.4393" = some (35.4393 : Rat) := by
  rw [show jsParseFloat "35.4393" =
      some (((1 : Int) : Rat) * (((35 : Nat) : Rat) + ((4393 : Nat) : Rat) / 10 ^ (4 : Nat)))
    from rfl]
  norm_num

lemma jsParseFloat_lon : jsParseFloat "-82.2465" = some (-82.2465 : Rat) := by
  rw [show jsParseFloat "-82.2465" =
      some ((((-1 : Int)) : Rat) * (((82 : Nat) : Rat) + ((2465 : Nat) : Rat) / 10 ^ (4 : Nat)))
    from rfl]
  norm_num

lemma jsParseFloat_91 : jsParseFloat "91" = some (91 : Rat) := by
  rw [show jsParseFloat "91" = some (((1 : Int) : Rat) * ((91 : Nat) : Rat)) from rfl]
  norm_num

lemma submitValidate_valid (s : AppState) (la lo : Rat)
    (hla : jsParseFloat s.latitude = some la) (h1 : -90 ≤ la) (h2 : la ≤ 90)
    (hlo : jsParseFloat s.longitude = some lo) (h3 : -180 ≤ lo) (h4 : lo ≤ 180)
    (hd1 : s.date1 ≠ "") (hd2 : s.date2 ≠ "") :
    submitValidate s = FieldErrors.empty := by
  have hlatS := jsParseFloat_ne_empty hla
  have hlonS := jsParseFloat_ne_empty hlo
  have hr1 : ¬(la < -90 ∨ 90 < la) := by push_neg; exact ⟨h1, h2⟩
  have hr2 : ¬(lo < -180 ∨ 180 < lo) := by push_neg; exact ⟨h3, h4⟩
  unfold submitValidate
  rw [hla, hlo]
  simp [hlatS, hlonS, hr1, hr2, hd1, hd2, FieldErrors.empty]

lemma hasErrors_empty : FieldErrors.empty.hasErrors = false := rfl

lemma submit_valid_resolve (s : AppState) (resp : FetchResponse) (i1 i2 : Nat)
    (h : (submitValidate s).hasErrors = false) :
    handleSubmit s resp i1 i2 =
      submitResolve (submitLoading s) ((jsParseFloat s.latitude).getD 0)
        ((jsParseFloat s.longitude).getD 0) resp i1 i2 := by
  simp only [handleSubmit, h, Bool.false_eq_true, if_false]

lemma submitValidate_init : submitValidate initialState = FieldErrors.empty :=
  submitValidate_valid initialState 35.4393 (-82.2465) jsParseFloat_lat
    (by norm_num) (by norm_num) jsParseFloat_lon (by norm_num) (by norm_num)
    (by decide) (by decide)

lemma submitValidate_c1State : submitValidate c1State = FieldErrors.empty :=
  submitValidate_valid c1State 35.4393 (-82.2465) jsParseFloat_lat
    (by norm_num) (by norm_num) jsParseFloat_lon (by norm_num) (by norm_num)
    (by decide) (by decide)

/-- C3: out-of-range latitude (resp. longitude) yields the range error on
exactly that field, with a message distinct from the missing/non-numeric
one; each field's error depends only on that field's raw value (all four
are checked independently, with all errors collected); and any validation
failure clears both images, the API error text, the map center and the
marker. -/
theorem c3_validation :
    (∀ (s : AppState) (v : Rat), jsParseFloat s.latitude = some v → (v < -90 ∨ 90 < v) →
        (submitValidate s).latitude = some "Must be between -90 and 90.")
    ∧ (∀ (s : AppState) (v : Rat), jsParseFloat s.longitude = some v → (v < -180 ∨ 180 < v) →
        (submitValidate s).longitude = some "Must be between -180 and 180.")
    ∧ (∀ s : AppState, jsParseFloat s.latitude = none →
        (submitValidate s).latitude = some "Latitude is required and must be a number.")
    ∧ (∀ s : AppState, jsParseFloat s.longitude = none →
        (submitValidate s).longitude = some "Longitude is required and must be a number.")
    ∧ (("Latitude is required and must be a number." ≠ "Must be between -90 and 90.")
        ∧ ("Longitude is required and must be a number." ≠ "Must be between -180 and 180."))
    ∧ (∀ (s : AppState) (v : Rat), jsParseFloat s.latitude = some v → -90 ≤ v → v ≤ 90 →
        (submitValidate s).latitude = none)
    ∧ (∀ (s : AppState) (v : Rat), jsParseFloat s.longitude = some v → -180 ≤ v → v ≤ 180 →
        (submitValidate s).longitude = none)
    ∧ (∀ s : AppState, ((submitValidate s).date1 = none ↔ s.date1 ≠ "")
        ∧ ((submitValidate s).date2 = none ↔ s.date2 ≠ ""))
    ∧ (∀ s t : AppState, s.latitude = t.latitude →
        (submitValidate s).latitude = (submitValidate t).latitude)
    ∧ (∀ s t : AppState, s.longitude = t.longitude →
        (submitValidate s).longitude = (submitValidate t).longitude)
    ∧ (∀ s t : AppState, s.date1 = t.date1 →
        (submitValidate s).date1 = (submitValidate t).date1)
    ∧ (∀ s t : AppState, s.date2 = t.date2 →
        (submitValidate s).date2 = (submitValidate t).date2)
    ∧ (∀ (s : AppState) (resp : FetchResponse) (i1 i2 : Nat),
        (submitValidate s).hasErrors = true →
        (handleSubmit s resp i1 i2).image1Info = none
          ∧ (handleSubmit s resp i1 i2).image2Info = none
          ∧ (handleSubmit s resp i1 i2).apiError = ""
          ∧ (handleSubmit s resp i1 i2).mapCenter = none
          ∧ (handleSubmit s resp i1 i2).markerPosition = none
          ∧ (handleSubmit s resp i1 i2).errors = submitValidate s) := by
  refine ⟨?_, ?_, ?_, ?_, ⟨by decide, by decide⟩, ?_, ?_, ?_, ?_, ?_, ?_, ?_, ?_⟩
  · intro s v hv hr
    have hS := jsParseFloat_ne_empty hv
    simp [submitValidate, hv, hS, hr]
  · intro s v hv hr
    have hS := jsParseFloat_ne_empty hv
    simp [submitValidate, hv, hS, hr]
  · intro s h
    simp [submitValidate, h]
  · intro s h
    simp [submitValidate, h]
  · intro s v hv h1 h2
    have hS := jsParseFloat_ne_empty hv
    have hr : ¬(v < -90 ∨ 90 < v) := by push_neg; exact ⟨h1, h2⟩
    simp [submitValidate, hv, hS, hr]
  · intro s v hv h1 h2
    have hS := jsParseFloat_ne_empty hv
    have hr : ¬(v < -180 ∨ 180 < v) := by push_neg; exact ⟨h1, h2⟩
    simp [submitValidate, hv, hS, hr]
  · intro s
    constructor
    · by_cases h : s.date1 = "" <;> simp [submitValidate, h]
    · by_cases h : s.date2 = "" <;> simp [submitValidate, h]
  · intro s t h
    simp only [submitValidate, h]
  · intro s t h
    simp only [submitValidate, h]
  · intro s t h
    simp only [submitValidate, h]
  · intro s t h
    simp only [submitValidate, h]
  · intro s resp i1 i2 h
    simp [handleSubmit, h]

/-- Witness for C3: latitude "91" produces the range error on the latitude
field, and the failed submit clears the marker. -/
theorem c3_validation_witness :
    (submitValidate { initialState with latitude := "91" }).latitude =
      some "Must be between -90 and 90."
    ∧ (handleSubmit { initialState with latitude := "91" } (.ok descA descB) 1 2).markerPosition
      = none := by
  have hlat : (submitValidate { initialState with latitude := "91" }).latitude =
      some "Must be between -90 and 90." :=
    c3_validation.1 { initialState with latitude := "91" } 91 jsParseFloat_91
      (Or.inr (by norm_num))
  have hErr : (submitValidate { initialState with latitude := "91" }).hasErrors = true := by
    rw [FieldErrors.hasErrors, hlat]
    rfl
  exact ⟨hlat,
    (c3_validation.2.2.2.2.2.2.2.2.2.2.2.2 { initialState with latitude := "91" }
      (.ok descA descB) 1 2 hErr).2.2.2.2.1⟩

/-- C4: entering the request sets the in-flight flag and clears both held
descriptors; a valid submit resolves through `submitResolve`, whose result
always has the in-flight flag cleared; a non-success HTTP status stores
the response body as the error detail when non-empty and a message
synthesized from the status code otherwise, and clears map center and
marker, with both images absent (the failed branch of
`Loading → {Loaded, RequestFailed}`); a network failure stores the thrown
message and also clears center and marker; a success response installs
both descriptors (the `Loaded` branch) — the response being exactly one of
these constructors, `Loading` resolves to exactly one of the two outcomes. -/
theorem c4_failure_resolution :
    (∀ s : AppState, (submitLoading s).isLoading = true
        ∧ (submitLoading s).image1Info = none ∧ (submitLoading s).image2Info = none)
    ∧ (∀ (s : AppState) (resp : FetchResponse) (i1 i2 : Nat),
        (submitValidate s).hasErrors = false →
        handleSubmit s resp i1 i2 =
          submitResolve (submitLoading s) ((jsParseFloat s.latitude).getD 0)
            ((jsParseFloat s.longitude).getD 0) resp i1 i2)
    ∧ (∀ (s1 : AppState) (la lo : Rat) (resp : FetchResponse) (i1 i2 : Nat),
        (submitResolve s1 la lo resp i1 i2).isLoading = false)
    ∧ (∀ (s : AppState) (la lo : Rat) (st : Nat) (body : String) (i1 i2 : Nat),
        (submitResolve (submitLoading s) la lo (.httpError st body) i1 i2).apiError =
            (if body = "" then "HTTP error! Status: " ++ natStr st else body)
          ∧ (submitResolve (submitLoading s) la lo (.httpError st body) i1 i2).mapCenter = none
          ∧ (submitResolve (submitLoading s) la lo (.httpError st body) i1 i2).markerPosition
            = none
          ∧ (submitResolve (submitLoading s) la lo (.httpError st body) i1 i2).image1Info = none
          ∧ (submitResolve (submitLoading s) la lo (.httpError st body) i1 i2).image2Info = none)
    ∧ (∀ (s : AppState) (la lo : Rat) (msg : String) (i1 i2 : Nat),
        (submitResolve (submitLoading s) la lo (.networkFailure msg) i1 i2).apiError = msg
          ∧ (submitResolve (submitLoading s) la lo (.networkFailure msg) i1 i2).mapCenter = none
          ∧ (submitResolve (submitLoading s) la lo (.networkFailure msg) i1 i2).markerPosition
            = none)
    ∧ (∀ (s1 : AppState) (la lo : Rat) (d1 d2 : ImageDescriptor) (i1 i2 : Nat),
        (submitResolve s1 la lo (.ok d1 d2) i1 i2).image1Info.isSome = true
          ∧ (submitResolve s1 la lo (.ok d1 d2) i1 i2).image2Info.isSome = true) := by
  refine ⟨?_, ?_, ?_, ?_, ?_, ?_⟩
  · intro s; exact ⟨rfl, rfl, rfl⟩
  · intro s resp i1 i2 h
    exact submit_valid_resolve s resp i1 i2 h
  · intro s1 la lo resp i1 i2
    cases resp <;> rfl
  · intro s la lo st body i1 i2
    exact ⟨rfl, rfl, rfl, rfl, rfl⟩
  · intro s la lo msg i1 i2
    exact ⟨rfl, rfl, rfl⟩
  · intro s1 la lo d1 d2 i1 i2
    exact ⟨rfl, rfl⟩

/-- Witness for C4: a failed request with empty body on the fresh session
synthesizes the status message and clears the marker. -/
theorem c4_failure_resolution_witness :
    handleSubmit initialState (.httpError 500 "") 1 2 =
      submitResolve (submitLoading initialState) ((jsParseFloat "35.4393").getD 0)
        ((jsParseFloat "-82.2465").getD 0) (.httpError 500 "") 1 2
    ∧ (submitResolve (submitLoading initialState) 1 2 (.httpError 500 "") 1 2).apiError =
        (if ("" : String) = "" then "HTTP error! Status: " ++ natStr 500 else "") := by
  refine ⟨?_, (c4_failure_resolution.2.2.2.1 initialState 1 2 500 "" 1 2).1⟩
  exact c4_failure_resolution.2.1 initialState (.httpError 500 "") 1 2
    (by rw [submitValidate_init]; rfl)

/-- C1 counterexample: a session already holding descriptor object 1 with
content `descA` re-submits the same coordinates/dates and receives a
byte-identical response carrying fresh object 10; the held reference is
replaced by object 10, not kept. -/
theorem c1_counterexample :
    c1State.image1Info = some ⟨1, descA⟩
    ∧ (handleSubmit c1State (.ok descA descB) 10 11).image1Info = some ⟨10, descA⟩
    ∧ (handleSubmit c1State (.ok descA descB) 10 11).image1Info ≠ c1State.image1Info := by
  have hres := submit_valid_resolve c1State (.ok descA descB) 10 11
    (by rw [submitValidate_c1State]; rfl)
  refine ⟨rfl, ?_, ?_⟩
  · rw [hres]; rfl
  · rw [hres]; decide

/-- C1 (amended): the reconciliation updater itself implements identity
suppression — when a descriptor is currently held and the incoming one has
the same image URL and the same bounds, the held object is returned.
However, `handleSubmit` clears both held descriptors when entering the
loading state, so the updater of a full re-submit sees no held descriptor
and the session ends up holding the fresh response objects even for a
byte-identical response. -/
theorem c1_reconcile_identity :
    (∀ p incoming : ImageObj, p.desc.imageUrl = incoming.desc.imageUrl →
        p.desc.bounds = incoming.desc.bounds →
        reconcileImage (some p) incoming = p)
    ∧ (∀ s : AppState,
        (submitLoading s).image1Info = none ∧ (submitLoading s).image2Info = none)
    ∧ (∀ (s : AppState) (d1 d2 : ImageDescriptor) (i1 i2 : Nat),
        (submitValidate s).hasErrors = false →
        (handleSubmit s (.ok d1 d2) i1 i2).image1Info = some ⟨i1, d1⟩
          ∧ (handleSubmit s (.ok d1 d2) i1 i2).image2Info = some ⟨i2, d2⟩) := by
  refine ⟨?_, ?_, ?_⟩
  · intro p incoming h1 h2
    show (if p.desc.imageUrl = incoming.desc.imageUrl ∧ p.desc.bounds = incoming.desc.bounds
      then p else incoming) = p
    rw [if_pos ⟨h1, h2⟩]
  · intro s; exact ⟨rfl, rfl⟩
  · intro s d1 d2 i1 i2 h
    rw [submit_valid_resolve s (.ok d1 d2) i1 i2 h]
    exact ⟨rfl, rfl⟩

/-- Witness for C1 (amended): the updater keeps held object 1 for a
structurally equal incoming object 10, and a valid fresh-session submit
installs the response objects. -/
theorem c1_reconcile_identity_witness :
    reconcileImage (some ⟨1, descA⟩) ⟨10, descA⟩ = ⟨1, descA⟩
    ∧ (handleSubmit initialState (.ok descA descB) 1 2).image1Info = some ⟨1, descA⟩ :=
  ⟨c1_reconcile_identity.1 ⟨1, descA⟩ ⟨10, descA⟩ rfl rfl,
   (c1_reconcile_identity.2.2 initialState descA descB 1 2
      (by rw [submitValidate_init]; rfl)).1⟩

lemma scenarioResult_fields :
    scenarioResult.image1Info = some ⟨1, descA⟩
    ∧ scenarioResult.image2Info = some ⟨2, descB⟩
    ∧ scenarioResult.isLoading = false
    ∧ scenarioResult.mapCenter = some (35.4393, -82.2465)
    ∧ scenarioResult.markerPosition = some (35.4393, -82.2465) := by
  have hres := submit_valid_resolve initialState (.ok descA descB) 1 2
    (by rw [submitValidate_init]; rfl)
  unfold scenarioResult
  rw [hres]
  refine ⟨rfl, rfl, rfl, ?_, ?_⟩
  · show some ((jsParseFloat initialState.latitude).getD 0,
      (jsParseFloat initialState.longitude).getD 0) = some (35.4393, -82.2465)
    rw [show initialState.latitude = "35.4393" from rfl,
      show initialState.longitude = "-82.2465" from rfl, jsParseFloat_lat, jsParseFloat_lon]
    rfl
  · show some ((jsParseFloat initialState.latitude).getD 0,
      (jsParseFloat initialState.longitude).getD 0) = some (35.4393, -82.2465)
    rw [show initialState.latitude = "35.4393" from rfl,
      show initialState.longitude = "-82.2465" from rfl, jsParseFloat_lat, jsParseFloat_lon]
    rfl

/-- C2 counterexample: in the section-8 scenario the loaded session has a
pending map center, so `MapUpdater` issues a `flyTo` (Center) command with
the request coordinate — not a `FitBounds` with image1's bounds. -/
theorem c2_counterexample :
    mapUpdaterCommand (mapUpdaterBoundsOf scenarioResult) scenarioResult.mapCenter =
      some (.flyTo (35.4393, -82.2465) 13)
    ∧ mapUpdaterCommand (mapUpdaterBoundsOf scenarioResult) scenarioResult.mapCenter ≠
      some (.fitBounds descA.bounds) := by
  have h := scenarioResult_fields
  have hb : mapUpdaterBoundsOf scenarioResult = some descA.bounds := by
    unfold mapUpdaterBoundsOf
    rw [h.1]
  rw [hb, h.2.2.2.1]
  exact ⟨rfl, by decide⟩

/-- C2 (amended): the Center intent takes precedence over FitBounds: with
both a pending center and image bounds, `MapUpdater` issues `flyTo` with
the center; `fitBounds` is issued only when no center is pending, using
image1's bounds with priority over image2's; in the section-8 scenario the
session reaches Loaded with the marker at (35.4393, -82.2465) and the
viewport issues one `flyTo` to that coordinate (no FitBounds). -/
theorem c2_viewport_priority :
    (∀ (b : LatLngBounds) (c : Rat × Rat),
        mapUpdaterCommand (some b) (some c) = some (.flyTo c 13))
    ∧ (∀ b : LatLngBounds, mapUpdaterCommand (some b) none = some (.fitBounds b))
    ∧ mapUpdaterCommand none none = none
    ∧ (∀ (s : AppState) (i : ImageObj), s.image1Info = some i →
        mapUpdaterBoundsOf s = some i.desc.bounds)
    ∧ (scenarioResult.isLoading = false
        ∧ scenarioResult.image1Info = some ⟨1, descA⟩
        ∧ scenarioResult.markerPosition = some (35.4393, -82.2465)
        ∧ mapUpdaterCommand (mapUpdaterBoundsOf scenarioResult) scenarioResult.mapCenter =
            some (.flyTo (35.4393, -82.2465) 13)) := by
  refine ⟨fun b c => rfl, fun b => rfl, rfl, ?_, ?_⟩
  · intro s i h
    unfold mapUpdaterBoundsOf
    rw [h]
  · have h := scenarioResult_fields
    have hb : mapUpdaterBoundsOf scenarioResult = some descA.bounds := by
      unfold mapUpdaterBoundsOf
      rw [h.1]
    refine ⟨h.2.2.1, h.1, h.2.2.2.2, ?_⟩
    rw [hb, h.2.2.2.1]
    rfl

/-- Witness for C2 (amended): image1 present in a held session determines
the bounds fed to `MapUpdater`, and with no pending center those bounds
are applied via `fitBounds`. -/
theorem c2_viewport_priority_witness :
    mapUpdaterBoundsOf c1State = some descA.bounds
    ∧ mapUpdaterCommand (some descA.bounds) none = some (.fitBounds descA.bounds) :=
  ⟨c2_viewport_priority.2.2.2.1 c1State ⟨1, descA⟩ rfl,
   c2_viewport_priority.2.1 descA.bounds⟩

/-- C7: running the computation with exactly the NDVI item selected yields
a result set with exactly one key, `NDVI`, whose value is the sample
`r 0 * 2 - 1` — a number in [-1, 1] for every sample stream in [0, 1) —
rendered by `toFixed` with exactly 4 decimal digits. -/
theorem c7_ndvi_result (r : Nat → Rat) (h : ∀ n, 0 ≤ r n ∧ r n < 1) :
    computeResults ["NDVI (Normalized Difference Vegetation Index)"] r =
      [("NDVI", jsToFixed (r 0 * 2 - 1) 4)]
    ∧ -1 ≤ r 0 * 2 - 1 ∧ r 0 * 2 - 1 ≤ 1
    ∧ decimalsAfterPoint (jsToFixed (r 0 * 2 - 1) 4) = 4 := by
  refine ⟨rfl, ?_, ?_, jsToFixed_decimalsAfterPoint _ 4 (by norm_num)⟩
  · have := (h 0).1; linarith
  · have := (h 0).2; linarith

/-- Witness for C7 at the constant stream 1/2. -/
theorem c7_ndvi_result_witness :
    computeResults ["NDVI (Normalized Difference Vegetation Index)"] (fun _ => (1/2 : Rat)) =
      [("NDVI", jsToFixed ((1/2 : Rat) * 2 - 1) 4)]
    ∧ -1 ≤ (1/2 : Rat) * 2 - 1 ∧ (1/2 : Rat) * 2 - 1 ≤ 1
    ∧ decimalsAfterPoint (jsToFixed ((1/2 : Rat) * 2 - 1) 4) = 4 :=
  c7_ndvi_result (fun _ => (1/2 : Rat)) (fun _ => ⟨by norm_num, by norm_num⟩)
